import Mathlib

set_option autoImplicit false

/-!
Verification of the ingestion / metrics / classification / reporting pipeline
of the vray-result-viewer repository (src/main.py), as a shallow embedding in
Lean 4.  Pure Python functions are translated into Lean functions; Python
exceptions are modelled by `Except Unit`; Python `float` values produced by
the pipeline's arithmetic are modelled exactly by `ℚ`; `numpy` `uint8`
grayscale images are modelled as lists of rows of `Nat` pixel values, with
wrap-around arithmetic made explicit where the source relies on it.
-/

/-! ## Dynamically typed Python values

The report code stores `pathlib.Path` objects, strings and `ProblemLevel`
enum members in the same dataframe columns and compares them with Python
equality, which is `False` across distinct types (`Path("x") == "x"` is
`False`, and an `Enum` member never equals a string).  `PyVal` carries the
runtime type so these comparisons can be embedded faithfully. -/

/-- Severity classification of one comparison (class ProblemLevel, src/main.py). -/
inductive ProblemLevel where
  | GOOD
  | SOFT
  | HARD
deriving DecidableEq, Repr, BEq

/-- A dynamically typed Python value as stored in tree-item data and report
columns: a string, a `pathlib.Path` (modelled by its POSIX string form), or a
`ProblemLevel` enum member. -/
inductive PyVal where
  | str (s : String)
  | path (p : String)
  | plevel (l : ProblemLevel)
deriving DecidableEq, Repr

/-- Python `==` on `PyVal`: structural within one runtime type, `False` across
types (in particular `Path("emulation") == "emulation"` is `False` and
`ProblemLevel.HARD == "ProblemLevel.HARD"` is `False`). -/
def pyEq : PyVal → PyVal → Bool
  | PyVal.str a, PyVal.str b => a == b
  | PyVal.path a, PyVal.path b => a == b
  | PyVal.plevel a, PyVal.plevel b => a == b
  | _, _ => false

/-- Python `int(x)` on a float/rational: truncation toward zero. -/
def pyInt (q : ℚ) : Int := if 0 ≤ q then ⌊q⌋ else ⌈q⌉

/-- Model of `pathlib.PurePath.parent` on the simple relative POSIX-style
paths this program consumes: the part before the last separator, `"."` when
there is no separator. -/
def pathParent (s : String) : String :=
  match (s.data.reverse.dropWhile (fun c => c ≠ '/')) with
  | [] => "."
  | _ :: tail => if tail.isEmpty then "/" else String.mk tail.reverse

/-! ## Grayscale images and the image pair metrics engine

`cv2.imread(..., cv2.IMREAD_GRAYSCALE)` produces a 2-d `uint8` array; an
image is a list of rows of pixel values (each `< 256` for images produced by
a real decode).  The filesystem seen by `ComputeMetrics` is a map from path
strings to a `FileState`: no regular file at the path, a regular file that
`cv2.imread` cannot decode (it then returns `None`), or a decodable image. -/

/-- What the filesystem holds at one path. -/
inductive FileState where
  | absent
  | unreadable
  | image (img : List (List Nat))
deriving DecidableEq, Repr

/-- Python `p.is_file() and p.exists()`: true for any existing regular file,
decodable or not. -/
def fileExists : FileState → Bool
  | FileState.absent => false
  | FileState.unreadable => true
  | FileState.image _ => true

/-- Model of `cv2.imread(str(p), cv2.IMREAD_GRAYSCALE)`: the decoded image,
or `none` (Python `None`) when the file cannot be decoded or does not exist. -/
def imreadGray (fs : String → FileState) (p : String) : Option (List (List Nat)) :=
  match fs p with
  | FileState.image img => some img
  | _ => none

/-- Model of `numpy` 2-d array shape `(rows, cols)`. -/
def imgShape (img : List (List Nat)) : Nat × Nat :=
  (img.length, (img.headD []).length)

/-- Model of `numpy` `arr.size`: the number of pixels. -/
def imgSize (img : List (List Nat)) : Nat :=
  (img.map List.length).sum

/-- The pixel pairs of two equal-shape images, row by row. -/
def pixelsZip (i1 i2 : List (List Nat)) : List (Nat × Nat) :=
  (List.zip i1 i2).flatMap (fun rc => List.zip rc.1 rc.2)

/-- `uint8` subtraction as performed by `numpy` broadcasting: `(a - b) mod 256`. -/
def u8sub (a b : Nat) : Nat := (a + 256 - b % 256) % 256

/-- Model of `np.count_nonzero(cv2.absdiff(run_image, ref_image))`:
`cv2.absdiff` is a saturated absolute difference, so a pixel position is
counted exactly when the two pixels differ. -/
def diffPixels (i1 i2 : List (List Nat)) : Nat :=
  ((pixelsZip i1 i2).filter (fun p => p.1 != p.2)).length

/-- Model of `np.mean((run_image - ref_image) ** 2)` on `uint8` arrays: both
the subtraction and the squaring stay in `uint8` and wrap modulo 256; only
the final mean is taken in floating point (here exactly, in `ℚ`). -/
def mseCode (i1 i2 : List (List Nat)) : ℚ :=
  let sq : List Nat := (pixelsZip i1 i2).map (fun p => ((u8sub p.1 p.2) ^ 2) % 256)
  (sq.sum : ℚ) / (sq.length : ℚ)

/-- Modelled from the spec: the true mean squared error, `mean over all
pixels of the squared grayscale difference`, computed without 8-bit
wrap-around.  Stated only to compare `mseCode` against the specification. -/
def trueMse (i1 i2 : List (List Nat)) : ℚ :=
  let sq : List ℤ := (pixelsZip i1 i2).map (fun p => ((p.1 : ℤ) - (p.2 : ℤ)) ^ 2)
  ((sq.sum : ℤ) : ℚ) / (sq.length : ℚ)

/-- Output of comparing one run image against its reference (class Metrics). -/
structure Metrics where
  total_pixels_count : Nat := 0
  diff_pixels_count : Nat := 0
  mse : ℚ := 0
  ssim : ℚ := 0
deriving DecidableEq, Repr

/-- Embedding of `ComputeMetrics(run_file, ref_file)` (src/main.py:229-249).
The result is `Except.ok none` for the explicit not-computable outcome
(`return None`), `Except.ok (some m)` for computed metrics, and
`Except.error ()` when the Python code raises: `len(run_image)` on a failed
decode raises `TypeError`; mismatched shapes raise no later than the
shape-equality check inside `skimage.metrics.structural_similarity`; and
`structural_similarity` also raises `ValueError` when either image side is
smaller than its default `win_size` of 7 (`win_size exceeds image extent`).
Past those checks the ssim call returns a number, which the source merely
stores; `ssimFn` abstracts that numeric value.  The source's own shape test
compares `len(run_image)` with itself and is therefore never true; it is
kept verbatim. -/
def ComputeMetrics (ssimFn : List (List Nat) → List (List Nat) → ℚ)
    (fs : String → FileState) (run_file ref_file : String) :
    Except Unit (Option Metrics) :=
  let ref_exists := fileExists (fs ref_file)
  let run_exists := fileExists (fs run_file)
  if ¬ ref_exists ∨ ¬ run_exists then Except.ok none
  else
    match imreadGray fs run_file with
    | none => Except.error ()
    | some run_image =>
      if run_image.length ≠ run_image.length then Except.ok none
      else
        match imreadGray fs ref_file with
        | none => Except.error ()
        | some ref_image =>
          if imgShape run_image ≠ imgShape ref_image then Except.error ()
          else if run_image.length < 7 ∨ (run_image.headD []).length < 7 then
            Except.error ()
          else
            Except.ok (some
              { total_pixels_count := imgSize run_image
                diff_pixels_count := diffPixels run_image ref_image
                mse := mseCode run_image ref_image
                ssim := ssimFn run_image ref_image })

/-- A placeholder SSIM function for concrete evaluations; every theorem that
depends on an SSIM value quantifies over the function instead. -/
def ssimZero : List (List Nat) → List (List Nat) → ℚ := fun _ _ => 0

/-! ## Result document model and loader (src/main.py:15-133)

The raw JSON document is modelled structurally: a possibly-missing key is an
`Option` field, and `json_data.get(key, default)` is `Option.getD`.  Open
maps (`stats`, `version`, `statsFields`) are ordered association lists. -/

/-- One frame of one named render element (dataclass RenderElement).  Path
fields hold the raw string the JSON carried (`Path(...)` keeps it). -/
structure RenderElement where
  frame : Int := 0
  name : String := ""
  delta_count : Int := 0
  status : String := ""
  exit_code : Int := 0
  ref_file : String := ""
  ref_repro_file : String := ""
  run_file : String := ""
  delta_file : String := ""
deriving DecidableEq, Repr

/-- The raw JSON payload of one render element inside a frame group. -/
structure REJson where
  name : Option String := none
  deltaCount : Option Int := none
  status : Option String := none
  exitCode : Option Int := none
  refFile : Option String := none
  refReproFile : Option String := none
  runFile : Option String := none
  deltaFile : Option String := none
deriving DecidableEq, Repr

/-- The raw JSON payload of one frame group of the per-test diff list. -/
structure DiffItemJson where
  frame : Option Int := none
  renderElements : Option (List REJson) := none
deriving DecidableEq, Repr

/-- Embedding of `load_render_element(json_data, frame)` (src/main.py:61-72). -/
def load_render_element (j : REJson) (frame : Int) : RenderElement :=
  { frame := frame
    name := j.name.getD ""
    delta_count := j.deltaCount.getD 0
    status := j.status.getD ""
    exit_code := j.exitCode.getD 0
    ref_file := j.refFile.getD ""
    ref_repro_file := j.refReproFile.getD ""
    run_file := j.runFile.getD ""
    delta_file := j.deltaFile.getD "" }

/-- The flat sequence of loaded samples of a raw diff list, in raw order:
every render-element payload of every frame group, stamped with its group's
frame index.  This is the sequence the two nested loops of `load_test_diff`
(src/main.py:77-89) traverse. -/
def rawElements (json_data : List DiffItemJson) : List RenderElement :=
  (json_data.map (fun di =>
    (di.renderElements.getD []).map (fun e => load_render_element e (di.frame.getD 0)))).flatten

/-- One step of building the `render_elements` dict (src/main.py:86-89):
append the sample to the entry of its name, creating the entry (at the end,
in Python dict insertion order) when the name is new. -/
def dictAppend (acc : List (String × List RenderElement)) (e : RenderElement) :
    List (String × List RenderElement) :=
  match acc with
  | [] => [(e.name, [e])]
  | p :: ps => if p.1 = e.name then (p.1, p.2 ++ [e]) :: ps else p :: dictAppend ps e

/-- First-match lookup in an association list, defaulting to `[]`. -/
def assocGet (acc : List (String × List RenderElement)) (n : String) : List RenderElement :=
  match acc with
  | [] => []
  | p :: ps => if p.1 = n then p.2 else assocGet ps n

/-- One insertion step of a stable ascending sort by frame index: the new
element is placed before the first existing element whose frame is not
smaller, so that an element earlier in the original list stays before
later elements with the same frame. -/
def insortFrame (x : RenderElement) : List RenderElement → List RenderElement
  | [] => [x]
  | y :: ys => if y.frame < x.frame then y :: insortFrame x ys else x :: y :: ys

/-- Model of Python's `list.sort(key=lambda x: x.frame)`: a stable ascending
sort by frame index (CPython's sort is stable by specification). -/
def sortByFrame (l : List RenderElement) : List RenderElement :=
  l.foldr insortFrame []

/-- Embedding of `load_test_diff(json_data)` (src/main.py:74-95): flatten the
frame groups into samples, group the samples by render-element name into an
insertion-ordered dict, then sort each name's list by frame index. -/
def load_test_diff (json_data : List DiffItemJson) : List (String × List RenderElement) :=
  let render_elements := (rawElements json_data).foldl dictAppend []
  render_elements.map (fun p => (p.1, sortByFrame p.2))

/-- One test (dataclass TestResult).  Timestamps are modelled as the raw
epoch seconds (`datetime.fromtimestamp` is an injective renaming on the
values this pipeline handles); paths keep their raw string. -/
structure TestResult where
  end_time : ℚ := 0
  start_time : ℚ := 0
  exit_code : Int := 0
  file_name : String := ""
  file_path : String := ""
  log_file : String := ""
  metric : String := ""
  status : String := ""
  stats : List (String × ℚ) := []
  worker_index : Int := 0
  diff : List (String × List RenderElement) := []
deriving DecidableEq, Repr

/-- The raw JSON payload of one test entry. -/
structure TestJson where
  endTime : Option ℚ := none
  startTime : Option ℚ := none
  exitCode : Option Int := none
  fileName : Option String := none
  file : Option String := none
  logFile : Option String := none
  metric : Option String := none
  status : Option String := none
  stats : Option (List (String × ℚ)) := none
  workerIndex : Option Int := none
  diff : Option (List DiffItemJson) := none
deriving DecidableEq, Repr

/-- Embedding of `load_test_result(json_data)` (src/main.py:98-113). -/
def load_test_result (j : TestJson) : TestResult :=
  { end_time := j.endTime.getD 0
    start_time := j.startTime.getD 0
    exit_code := j.exitCode.getD 0
    file_name := j.fileName.getD ""
    file_path := j.file.getD ""
    log_file := j.logFile.getD ""
    metric := j.metric.getD ""
    status := j.status.getD ""
    stats := j.stats.getD []
    worker_index := j.workerIndex.getD 0
    diff := load_test_diff (j.diff.getD []) }

/-- One `name -> dict(label, dimension)` entry of the header's declared
statistic fields. -/
structure StatsField where
  label : String := ""
  dimension : String := ""
deriving DecidableEq, Repr

/-- The built-in stats-field table the loader falls back to when the
document has no `statsFields` key (src/main.py:121-125). -/
def defaultStatsFields : List (String × StatsField) :=
  [("frameTime", { label := "Frame Time", dimension := "s" }),
   ("fullFrameTime", { label := "Full Frame Time", dimension := "s" }),
   ("totalTime", { label := "Total Time", dimension := "s" })]

/-- Run-level metadata (dataclass TestHeader).  The run duration is held as
its total number of seconds (`timedelta(hours, minutes, seconds)`). -/
structure TestHeader where
  total_tests : Int := 0
  failed_tests : Int := 0
  labels : List String := []
  result_version : String := ""
  stats_fields : List (String × StatsField) := defaultStatsFields
  title : String := "Results"
  update_ref_times : Bool := false
  version : List (String × String) := []
  duration : Int := 0
deriving DecidableEq, Repr

/-- The raw JSON payload of the document header. -/
structure HeaderJson where
  allTestsCount : Option Int := none
  failedTestsCount : Option Int := none
  labels : Option (List String) := none
  resultVersion : Option String := none
  statsFields : Option (List (String × StatsField)) := none
  title : Option String := none
  updateRefTimes : Option Bool := none
  version : Option (List (String × String)) := none
deriving DecidableEq, Repr

/-- Split a character list at every occurrence of `sep`, keeping empty
groups, as Python's `str.split(sep)` does. -/
def splitOnSep (sep : Char) : List Char → List (List Char)
  | [] => [[]]
  | c :: cs =>
    let r := splitOnSep sep cs
    if c = sep then [] :: r
    else
      match r with
      | [] => [[c]]
      | g :: gs => (c :: g) :: gs

/-- The numeric value of a decimal digit character. -/
def digitVal (c : Char) : Option Nat :=
  if c.isDigit then some (c.toNat - 48) else none

/-- The value of a non-empty all-digit character list. -/
def digitsVal (l : List Char) : Option Nat :=
  match l with
  | [] => none
  | _ => (l.mapM digitVal).map (fun ds => ds.foldl (fun acc d => acc * 10 + d) 0)

/-- Model of Python's `int(s)` on a decimal string: an optional sign followed
by digits; anything else raises `ValueError` (`none` here). -/
def pyParseInt (l : List Char) : Option Int :=
  match l with
  | '-' :: rest => (digitsVal rest).map (fun n => -(n : Int))
  | '+' :: rest => (digitsVal rest).map (fun n => (n : Int))
  | _ => (digitsVal l).map (fun n => (n : Int))

/-- Embedding of `load_test_header(json_data)` (src/main.py:115-133).  The
duration string (the `duration` entry of the `version` map, defaulting to
`"0:0:0"`) must be exactly three colon-separated integers; otherwise the
unpacking `hours, minutes, seconds = map(int, ...)` raises and the whole
load fails (`Except.error`). -/
def load_test_header (j : HeaderJson) : Except Unit TestHeader :=
  match (splitOnSep ':'
      ((List.lookup "duration" (j.version.getD [])).getD "0:0:0").data).mapM pyParseInt with
  | some [h, m, s] =>
    Except.ok
      { total_tests := j.allTestsCount.getD 0
        failed_tests := j.failedTestsCount.getD 0
        labels := j.labels.getD []
        result_version := j.resultVersion.getD "3.0"
        stats_fields := j.statsFields.getD defaultStatsFields
        title := j.title.getD "Results"
        update_ref_times := j.updateRefTimes.getD false
        version := j.version.getD []
        duration := h * 3600 + m * 60 + s }
  | _ => Except.error ()

/-! ## Tree model and report aggregator (src/main.py:144-152, 252-308, 437-484)

`populate_tree_view` builds a two-level `QStandardItemModel`: directory
items (data = the `Path` of the test's parent directory) holding test items
(text = the test's file name, data = the `TestResult`), which in turn hold
render-element display items.  `GenerateReport` walks the first two levels,
checking each item's stored type tag. -/

/-- The `TreeItemType` enum (src/main.py:149-152). -/
inductive TreeItemType where
  | directory
  | testResult
  | renderElement
deriving DecidableEq, Repr

/-- The payload stored under `TreeUserRole.Data` on one tree item. -/
inductive TreeData where
  | dirD (p : String)
  | testD (t : TestResult)
  | elemsD (es : List RenderElement)
deriving DecidableEq, Repr

/-- One `QStandardItem` of the results tree: its type tag, display text,
data payload and children. -/
structure TreeItem where
  itemType : TreeItemType
  text : String
  data : TreeData
  children : List TreeItem

/-- The render-element display item built for one diff entry
(src/main.py:466-478); the tooltip and colouring are presentation only. -/
def renderElementItem (name : String) (es : List RenderElement) : TreeItem :=
  { itemType := TreeItemType.renderElement
    text := if es.length = 1 then name else name ++ " (x" ++ toString es.length ++ ")"
    data := TreeData.elemsD es
    children := [] }

/-- The test item built for one `TestResult` (src/main.py:457-478). -/
def testItemOf (t : TestResult) : TreeItem :=
  { itemType := TreeItemType.testResult
    text := t.file_name
    data := TreeData.testD t
    children := t.diff.map (fun p => renderElementItem p.1 p.2) }

/-- Embedding of the model construction of `populate_tree_view`
(src/main.py:437-484): group the loaded tests under directory items keyed by
`test_result.file_path.parent`, in first-appearance order, each directory
item holding its tests in load order. -/
def populate_tree_view (results : List TestResult) : List TreeItem :=
  results.foldl (fun acc t =>
    let d := pathParent t.file_path
    if acc.any (fun it => it.data = TreeData.dirD d) then
      acc.map (fun it =>
        if it.data = TreeData.dirD d then
          { it with children := it.children ++ [testItemOf t] }
        else it)
    else
      acc ++ [{ itemType := TreeItemType.directory
                text := d
                data := TreeData.dirD d
                children := [testItemOf t] }]) []

/-- One aggregated report row (dataclass ReportEntry).  The `directory`
column holds whatever Python object the tree carried — a `Path` — hence
`PyVal`. -/
structure ReportEntry where
  directory : PyVal := PyVal.str ""
  test : String := ""
  element : String := ""
  mse : ℚ := 0
  SSIM : ℚ := 0
  diff_percentage : ℚ := 0
  diff_count_pre_computed : Int := 0
  diff_count : Nat := 0
  pixel_count : Nat := 0
  problem_level : ProblemLevel := ProblemLevel.HARD
  level : Int := 0
  message : String := ""
deriving DecidableEq, Repr

/-- The diff percentage of a computed metrics value,
`(metrics.diff_pixels_count / metrics.total_pixels_count) * 100`. -/
def diffPercentage (m : Metrics) : ℚ :=
  (m.diff_pixels_count : ℚ) / (m.total_pixels_count : ℚ) * 100

/-- The severity classification inlined in the two report branches of
`GenerateReport` (src/main.py:283-285 and 299-301): problem level, intensity
level and message as a function of the optional metrics outcome and the
sample's own status string. -/
def classify (m : Option Metrics) (status : String) : ProblemLevel × Int × String :=
  match m with
  | some mt =>
    (if mt.ssim > 0.95 then ProblemLevel.GOOD else ProblemLevel.SOFT,
     pyInt ((mt.diff_pixels_count : ℚ) / (mt.total_pixels_count : ℚ) * 20),
     status)
  | none => (ProblemLevel.HARD, 20, "Rendering failed")

/-- The report row built when metrics were computed (src/main.py:273-287). -/
def computableEntry (d t nm : String) (m : Metrics) (e : RenderElement) : ReportEntry :=
  { directory := PyVal.path d
    test := t
    element := nm
    mse := m.mse
    SSIM := m.ssim
    diff_percentage := diffPercentage m
    diff_count_pre_computed := e.delta_count
    diff_count := m.diff_pixels_count
    pixel_count := m.total_pixels_count
    problem_level := (classify (some m) e.status).1
    level := (classify (some m) e.status).2.1
    message := (classify (some m) e.status).2.2 }

/-- The report row built when metrics were not computable
(src/main.py:289-303). -/
def hardEntry (d t nm : String) (e : RenderElement) : ReportEntry :=
  { directory := PyVal.path d
    test := t
    element := nm
    mse := 0
    SSIM := 0
    diff_percentage := 0
    diff_count_pre_computed := e.delta_count
    diff_count := 0
    pixel_count := 0
    problem_level := (classify none e.status).1
    level := (classify none e.status).2.1
    message := (classify none e.status).2.2 }

/-- Processing of one sample inside the report loop: compute the metrics for
its run/reference pair and build the row; a Python exception escaping
`ComputeMetrics` escapes the loop (`Except.error`). -/
def processElement (ssimFn : List (List Nat) → List (List Nat) → ℚ)
    (fs : String → FileState) (d t nm : String) (e : RenderElement) :
    Except Unit ReportEntry :=
  match ComputeMetrics ssimFn fs e.run_file e.ref_file with
  | Except.error u => Except.error u
  | Except.ok (some m) => Except.ok (computableEntry d t nm m e)
  | Except.ok none => Except.ok (hardEntry d t nm e)

/-- The flat sequence of samples the nested loops of `GenerateReport`
(src/main.py:257-270) visit, with the directory path and test text each
sample is processed under: the first `limit` root children (all of them when
`limit == 0`), of these only the items tagged `Directory`, then their
children tagged `TestResult`, then the diff index in order, then each
name's samples in order. -/
def sampleList (root : List TreeItem) (limit : Nat) : List (String × String × String × RenderElement) :=
  let lim := if limit = 0 then root.length else limit
  (root.take lim).flatMap (fun child =>
    match child.itemType, child.data with
    | TreeItemType.directory, TreeData.dirD d =>
      child.children.flatMap (fun tchild =>
        match tchild.itemType, tchild.data with
        | TreeItemType.testResult, TreeData.testD t =>
          t.diff.flatMap (fun p => p.2.map (fun e => (d, tchild.text, p.1, e)))
        | _, _ => [])
    | _, _ => [])

/-- Left-to-right collection of the per-sample rows, stopping at the first
Python exception — the straightening of the nested report loops. -/
def collectRows (f : String × String × String × RenderElement → Except Unit ReportEntry) :
    List (String × String × String × RenderElement) → Except Unit (List ReportEntry)
  | [] => Except.ok []
  | s :: rest =>
    match f s with
    | Except.error u => Except.error u
    | Except.ok r =>
      match collectRows f rest with
      | Except.error u => Except.error u
      | Except.ok rs => Except.ok (r :: rs)

/-- Embedding of `GenerateReport(root, limit)` (src/main.py:252-308): one
appended row per visited sample, in visit order; an exception raised while
comparing one sample aborts the whole loop. -/
def GenerateReport (ssimFn : List (List Nat) → List (List Nat) → ℚ)
    (fs : String → FileState) (root : List TreeItem) (limit : Nat) :
    Except Unit (List ReportEntry) :=
  collectRows (fun s => processElement ssimFn fs s.1 s.2.1 s.2.2.1 s.2.2.2)
    (sampleList root limit)

/-! ## Report generation on the main window (src/main.py:486-544)

`generate_report` guards on `self.report`, runs `GenerateReport`, filters
the dataframe, prints summary statistics and writes `report.csv`.  The
window state keeps the three report attributes (`self.report`,
`self._report`, `self.report_df`) and, to make persistence observable, the
list of tables written to `report.csv` so far. -/

/-- The report-related state of the `MainWindow` object.  `report` is set in
`__init__` and nowhere else; the generation result lands in `under_report`
(the source's `self._report`). -/
structure WindowState where
  report : Option (List ReportEntry) := none
  under_report : Option (List ReportEntry) := none
  report_df : Option (List ReportEntry) := none
  written : List (List ReportEntry) := []
deriving DecidableEq, Repr

/-- The freshly initialised report state (src/main.py:337-341). -/
def windowInit : WindowState := {}

/-- Python truthiness of `self.report`: `None` and the empty list are falsy. -/
def pyTruthyReport : Option (List ReportEntry) → Bool
  | none => false
  | some l => !l.isEmpty

/-- The dataframe filter of src/main.py:499,
`report_df[report_df["directory"] != "emulation"]`: keep the rows whose
`directory` value does not Python-equal the string `"emulation"`. -/
def filterEmulation (rep : List ReportEntry) : List ReportEntry :=
  rep.filter (fun e => !(pyEq e.directory (PyVal.str "emulation")))

/-- `len(self.report_df)` over the filtered table (src/main.py:501). -/
def total_entries (df : List ReportEntry) : Nat := df.length

/-- The rows whose `problem_level` column Python-equals a given `PyVal` —
the selection pattern used throughout the summary block. -/
def selectByProblemLevel (df : List ReportEntry) (v : PyVal) : List ReportEntry :=
  df.filter (fun e => pyEq (PyVal.plevel e.problem_level) v)

/-- `failed_tests_ratio` (src/main.py:518): HARD rows over total rows,
comparing against the enum member itself. -/
def failed_tests_ratio (df : List ReportEntry) : ℚ :=
  ((selectByProblemLevel df (PyVal.plevel ProblemLevel.HARD)).length : ℚ) /
    (total_entries df : ℚ)

/-- Count the rows of a table per directory value, in first-appearance
order — the `groupby('directory').size()` of src/main.py:533 (pandas sorts
the group keys, but every theorem below applies this to a concrete or empty
selection where the order is immaterial). -/
def groupbyDirectorySize (l : List ReportEntry) : List (PyVal × Nat) :=
  l.foldl (fun acc e =>
    if acc.any (fun p => p.1 = e.directory) then
      acc.map (fun p => if p.1 = e.directory then (p.1, p.2 + 1) else p)
    else acc ++ [(e.directory, 1)]) []

/-- Embedding of src/main.py:533: the HARD-by-directory summary selects the
rows whose `problem_level` equals the *string* `'ProblemLevel.HARD'` and
groups them by directory. -/
def failed_tests_by_directory (df : List ReportEntry) : List (PyVal × Nat) :=
  groupbyDirectorySize (df.filter (fun e =>
    pyEq (PyVal.plevel e.problem_level) (PyVal.str "ProblemLevel.HARD")))

/-- Modelled from the spec: the exact number of filtered rows with a given
directory whose problem level is HARD — the count the summary is specified
to report per directory.  Stated only to compare
`failed_tests_by_directory` against the specification. -/
def hardCountByDirectorySpec (df : List ReportEntry) (d : PyVal) : Nat :=
  (df.filter (fun e => e.problem_level == ProblemLevel.HARD && e.directory == d)).length

/-- Embedding of `MainWindow.generate_report` (src/main.py:486-544).  If
`self.report` is truthy the call returns at once; otherwise the report is
regenerated: `GenerateReport` runs (its exception aborts the call), the
dataframe is built and filtered — an empty row set would raise (`KeyError`
on the missing `directory` column of an empty dataframe, or
`ZeroDivisionError` in the ratios) — the summary statistics are computed,
and the filtered table is written to `report.csv` (appended here to
`written`).  The result lands in `under_report`; `report` is never
assigned. -/
def generate_report (ssimFn : List (List Nat) → List (List Nat) → ℚ)
    (fs : String → FileState) (root : List TreeItem) (st : WindowState) :
    Except Unit WindowState :=
  if pyTruthyReport st.report then Except.ok st
  else
    match GenerateReport ssimFn fs root 0 with
    | Except.error u => Except.error u
    | Except.ok rep =>
      if rep.isEmpty then Except.error ()
      else
        let df := filterEmulation rep
        if df.isEmpty then Except.error ()
        else
          Except.ok { st with
            under_report := some rep
            report_df := some df
            written := st.written ++ [df] }

/-! ## Claim theorems -/

/-- A filesystem holding a 2-by-1 run image and a 1-by-1 reference image —
two existing, decodable files of different pixel dimensions. -/
def fsMismatch : String → FileState := fun p =>
  if p = "run.png" then FileState.image [[0], [0]]
  else if p = "ref.png" then FileState.image [[0]]
  else FileState.absent

/-- C1: on two existing readable images of different pixel dimensions,
`ComputeMetrics` does not return the not-computable outcome `None`: its
shape test compares `len(run_image)` with itself and never fires, and
`cv2.absdiff` then raises on the mismatched shapes.  The code diverges here
from the specified behaviour (the specification itself flags the
self-comparison as a latent defect). -/
theorem C1_shape_mismatch_raises :
    ComputeMetrics ssimZero fsMismatch "run.png" "ref.png" = Except.error () := by
  rfl

/-- A 7-by-7 grayscale image with every pixel 16 — large enough for the
default 7-by-7 ssim window, so `structural_similarity` succeeds on it. -/
def img16 : List (List Nat) := List.replicate 7 (List.replicate 7 16)

/-- A 7-by-7 grayscale image with every pixel 0. -/
def img0 : List (List Nat) := List.replicate 7 (List.replicate 7 0)

/-- A filesystem with the 7-by-7 all-16 run image and the 7-by-7 all-0
reference image. -/
def fsC5 : String → FileState := fun p =>
  if p = "run.png" then FileState.image img16
  else if p = "ref.png" then FileState.image img0
  else FileState.absent

/-- C5: the `mse` field is not the true mean squared error: on the 7-by-7
pair where every run pixel is 16 and every reference pixel is 0, metrics are
computed (the images satisfy the ssim window size), but the `uint8`
arithmetic of `np.mean((run - ref) ** 2)` wraps every 16² = 256 to 0, so
the computed `mse` is 0 while the true pixel-wise mean squared error is
256. -/
theorem C5_mse_uint8_wraparound :
    (∃ m : Metrics, ComputeMetrics ssimZero fsC5 "run.png" "ref.png" = Except.ok (some m)
        ∧ m.mse = 0 ∧ m.total_pixels_count = 49 ∧ m.diff_pixels_count = 49)
      ∧ trueMse img16 img0 = 256 ∧ (0 : ℚ) ≠ 256 := by
  refine ⟨⟨{ total_pixels_count := imgSize img16
             diff_pixels_count := diffPixels img16 img0
             mse := mseCode img16 img0
             ssim := ssimZero img16 img0 }, rfl, ?_, ?_, ?_⟩, ?_, by norm_num⟩
  · show mseCode img16 img0 = 0
    rw [show mseCode img16 img0 = ((0 : Nat) : ℚ) / ((49 : Nat) : ℚ) from rfl]
    norm_num
  · rfl
  · rfl
  · rw [show trueMse img16 img0 = ((12544 : ℤ) : ℚ) / ((49 : Nat) : ℚ) from rfl]
    norm_num

/-- A HARD report row in directory `d` as the aggregation loop produces it
for a sample with missing images. -/
def e9 : ReportEntry := hardEntry "d" "t" "beauty" {}

/-- C9: the HARD-by-directory summary compares the `problem_level` column
(holding `ProblemLevel` enum members) with the string
`'ProblemLevel.HARD'`, so its selection is always empty: on a table with one
HARD row in directory `d` it reports no group at all, while the specified
count for `d` is 1. -/
theorem C9_hard_by_directory_always_empty :
    failed_tests_by_directory [e9] = []
      ∧ hardCountByDirectorySpec [e9] (PyVal.path "d") = 1 := by
  constructor
  · rfl
  · rfl

/-- A render-element sample whose run and reference images are both
missing. -/
def reMissing : RenderElement :=
  { name := "beauty", run_file := "missing_run.png", ref_file := "missing_ref.png" }

/-- A filesystem with no files at all. -/
def fsAbsent : String → FileState := fun _ => FileState.absent

/-- A test whose source file lives in the `emulation` directory, with one
render-element sample whose images are missing. -/
def tr6 : TestResult :=
  { file_name := "t1", file_path := "emulation/t1.vrscene", diff := [("beauty", [reMissing])] }

/-- The report row the aggregation loop produces for `tr6`'s sample: a HARD
row whose grouping directory is the `emulation` `Path`. -/
def emuRow : ReportEntry := hardEntry "emulation" "t1" "beauty" reMissing

/-- C6: a row whose grouping directory is the excluded `emulation` directory
does appear in the persisted table and is counted in the summary
denominator: the filter compares the `Path` object in the `directory`
column with the string `"emulation"`, which is always unequal in Python, so
nothing is ever filtered out. -/
theorem C6_emulation_row_not_excluded :
    ∃ st : WindowState,
      generate_report ssimZero fsAbsent (populate_tree_view [tr6]) windowInit = Except.ok st
        ∧ st.report_df = some [emuRow]
        ∧ st.written = [[emuRow]]
        ∧ emuRow.directory = PyVal.path "emulation"
        ∧ emuRow.problem_level = ProblemLevel.HARD
        ∧ total_entries [emuRow] = 1 := by
  refine ⟨{ report := none
            under_report := some [emuRow]
            report_df := some [emuRow]
            written := [[emuRow]] }, rfl, rfl, rfl, rfl, rfl, rfl⟩

/-- A test in an ordinary directory with one missing-image sample. -/
def tr2 : TestResult :=
  { file_name := "t1", file_path := "suite/t1.vrscene", diff := [("beauty", [reMissing])] }

/-- The report row the loop produces for `tr2`'s sample. -/
def suiteRow : ReportEntry := hardEntry "suite" "t1" "beauty" reMissing

/-- C2: a second report-generation request is not a no-op.  The guard tests
`self.report`, but the generation result is stored in `self._report`, so
after a successful first call `report` is still `None`, the guard stays
false, and the second call recomputes the whole report and writes
`report.csv` a second time. -/
theorem C2_second_generate_report_recomputes :
    ∃ s1 s2 : WindowState,
      generate_report ssimZero fsAbsent (populate_tree_view [tr2]) windowInit = Except.ok s1
        ∧ s1.report = none
        ∧ pyTruthyReport s1.report = false
        ∧ generate_report ssimZero fsAbsent (populate_tree_view [tr2]) s1 = Except.ok s2
        ∧ s2.written = [[suiteRow], [suiteRow]]
        ∧ s2 ≠ s1 := by
  refine ⟨{ report := none
            under_report := some [suiteRow]
            report_df := some [suiteRow]
            written := [[suiteRow]] },
          { report := none
            under_report := some [suiteRow]
            report_df := some [suiteRow]
            written := [[suiteRow], [suiteRow]] }, rfl, rfl, rfl, rfl, rfl, ?_⟩
  intro h
  exact absurd (congrArg (fun s => s.written.length) h) (by decide)

/-- The level the code computes, `int((diff / total) * 20)`, equals the
specified `clamp(floor(diff_percentage / 5), 0, 20)` whenever
`diff ≤ total` and `total > 0` — which `ComputeMetrics` guarantees, since it
counts differing pixels among `total` pixels of a decoded image. -/
theorem pyInt_level_eq_clamp (d t : Nat) (hdt : d ≤ t) (h0 : 0 < t) :
    pyInt ((d : ℚ) / (t : ℚ) * 20) =
      max 0 (min 20 ⌊((d : ℚ) / (t : ℚ) * 100) / 5⌋) := by
  have ht : (0 : ℚ) < (t : ℚ) := by exact_mod_cast h0
  have hq0 : (0 : ℚ) ≤ (d : ℚ) / (t : ℚ) := by positivity
  have hq1 : (d : ℚ) / (t : ℚ) ≤ 1 := by
    rw [div_le_one ht]
    exact_mod_cast hdt
  have hrw : ((d : ℚ) / (t : ℚ) * 100) / 5 = (d : ℚ) / (t : ℚ) * 20 := by ring
  have hfl0 : 0 ≤ ⌊(d : ℚ) / (t : ℚ) * 20⌋ := Int.floor_nonneg.mpr (by positivity)
  have hfl20 : ⌊(d : ℚ) / (t : ℚ) * 20⌋ ≤ 20 := by
    have h : (d : ℚ) / (t : ℚ) * 20 ≤ 20 := by nlinarith
    calc ⌊(d : ℚ) / (t : ℚ) * 20⌋ ≤ ⌊(20 : ℚ)⌋ := Int.floor_le_floor h
      _ = 20 := by norm_num
  rw [hrw, pyInt, if_pos (by positivity), min_eq_right hfl20, max_eq_right hfl0]

/-- C4: the severity classification.  Not-computable maps to
(HARD, 20, "Rendering failed"); a computable outcome with `ssim > 0.95` to
GOOD and with `ssim ≤ 0.95` (including exactly 0.95) to SOFT, in both
computable cases with level `clamp(floor(diff_percentage / 5), 0, 20)` and
message the sample's own status string; a computable outcome is never
HARD. -/
theorem C4_severity_classification (m : Metrics) (status : String)
    (hdt : m.diff_pixels_count ≤ m.total_pixels_count)
    (h0 : 0 < m.total_pixels_count) :
    classify none status = (ProblemLevel.HARD, 20, "Rendering failed")
      ∧ (m.ssim > 0.95 → classify (some m) status =
          (ProblemLevel.GOOD, max 0 (min 20 ⌊diffPercentage m / 5⌋), status))
      ∧ (m.ssim ≤ 0.95 → classify (some m) status =
          (ProblemLevel.SOFT, max 0 (min 20 ⌊diffPercentage m / 5⌋), status))
      ∧ (classify (some m) status).1 ≠ ProblemLevel.HARD := by
  have hlevel := pyInt_level_eq_clamp m.diff_pixels_count m.total_pixels_count hdt h0
  refine ⟨rfl, ?_, ?_, ?_⟩
  · intro hs
    simp only [classify, diffPercentage, if_pos hs, ← hlevel]
  · intro hs
    simp only [classify, diffPercentage, if_neg (not_lt.mpr hs), ← hlevel]
  · simp only [classify]
    split <;> simp

/-- Witness for C4 at the concrete metrics value (100 pixels, 10 differing,
ssim 4/5). -/
theorem C4_severity_classification_witness :
    classify none "ok" = (ProblemLevel.HARD, 20, "Rendering failed")
      ∧ ((Metrics.mk 100 10 0 (4/5)).ssim > 0.95 → classify (some (Metrics.mk 100 10 0 (4/5))) "ok" =
          (ProblemLevel.GOOD,
            max 0 (min 20 ⌊diffPercentage (Metrics.mk 100 10 0 (4/5)) / 5⌋), "ok"))
      ∧ ((Metrics.mk 100 10 0 (4/5)).ssim ≤ 0.95 → classify (some (Metrics.mk 100 10 0 (4/5))) "ok" =
          (ProblemLevel.SOFT,
            max 0 (min 20 ⌊diffPercentage (Metrics.mk 100 10 0 (4/5)) / 5⌋), "ok"))
      ∧ (classify (some (Metrics.mk 100 10 0 (4/5))) "ok").1 ≠ ProblemLevel.HARD :=
  C4_severity_classification (Metrics.mk 100 10 0 (4/5)) "ok" (by norm_num) (by norm_num)

/-- Loading a header whose `version` map is missing: the duration string
defaults to `"0:0:0"`, which parses, and every other field takes its coded
default. -/
theorem load_test_header_version_none (hj : HeaderJson) (hv : hj.version = none) :
    load_test_header hj = Except.ok
      { total_tests := hj.allTestsCount.getD 0
        failed_tests := hj.failedTestsCount.getD 0
        labels := hj.labels.getD []
        result_version := hj.resultVersion.getD "3.0"
        stats_fields := hj.statsFields.getD defaultStatsFields
        title := hj.title.getD "Results"
        update_ref_times := hj.updateRefTimes.getD false
        version := []
        duration := 0 } := by
  unfold load_test_header
  rw [hv]
  rfl

/-- Whatever the duration parse produced, a successfully loaded header
carries the coded per-field defaults for its missing keys. -/
theorem load_test_header_fields (hj : HeaderJson) (h : TestHeader)
    (hok : load_test_header hj = Except.ok h) :
    h.total_tests = hj.allTestsCount.getD 0
      ∧ h.failed_tests = hj.failedTestsCount.getD 0
      ∧ h.labels = hj.labels.getD []
      ∧ h.result_version = hj.resultVersion.getD "3.0"
      ∧ h.stats_fields = hj.statsFields.getD defaultStatsFields
      ∧ h.title = hj.title.getD "Results"
      ∧ h.update_ref_times = hj.updateRefTimes.getD false
      ∧ h.version = hj.version.getD [] := by
  unfold load_test_header at hok
  split at hok
  · simp only [Except.ok.injEq] at hok
    subst hok
    simp
  · exact absurd hok (by simp)

/-- C8 counterexample: loading an input document with no keys at all
produces a header whose `result_version` string field defaults to `"3.0"`,
not to the empty string (and whose `title` defaults to `"Results"` and
`stats_fields` to a non-empty table). -/
theorem C8_header_string_default_counterexample :
    load_test_header {} = Except.ok
      { total_tests := 0
        failed_tests := 0
        labels := []
        result_version := "3.0"
        stats_fields := defaultStatsFields
        title := "Results"
        update_ref_times := false
        version := []
        duration := 0 }
      ∧ ("3.0" : String) ≠ ""
      ∧ ("Results" : String) ≠ ""
      ∧ defaultStatsFields ≠ [] := by
  refine ⟨load_test_header_version_none {} rfl, by decide, by decide, by decide⟩

/-- C8 amended: missing keys default during load — numeric fields to 0,
booleans to false, the duration string to `"0:0:0"`; in test entries string
fields default to the empty string and collections to empty (in particular
a test entry with no `stats` key loads with an empty stats mapping); in the
header, `labels` and `version` default to empty, but `result_version`
defaults to `"3.0"`, `title` to `"Results"`, and `stats_fields` to the
built-in three-field table. -/
theorem C8_defaults_amended :
    (∀ tj : TestJson, tj.stats = none → (load_test_result tj).stats = [])
      ∧ (∀ tj : TestJson, tj.fileName = none → (load_test_result tj).file_name = "")
      ∧ (∀ tj : TestJson, tj.metric = none → (load_test_result tj).metric = "")
      ∧ (∀ tj : TestJson, tj.status = none → (load_test_result tj).status = "")
      ∧ (∀ tj : TestJson, tj.exitCode = none → (load_test_result tj).exit_code = 0)
      ∧ (∀ tj : TestJson, tj.workerIndex = none → (load_test_result tj).worker_index = 0)
      ∧ (∀ tj : TestJson, tj.endTime = none → (load_test_result tj).end_time = 0)
      ∧ (∀ tj : TestJson, tj.diff = none → (load_test_result tj).diff = [])
      ∧ (∀ hj : HeaderJson, ∀ h : TestHeader, load_test_header hj = Except.ok h →
          (hj.allTestsCount = none → h.total_tests = 0)
            ∧ (hj.failedTestsCount = none → h.failed_tests = 0)
            ∧ (hj.labels = none → h.labels = [])
            ∧ (hj.updateRefTimes = none → h.update_ref_times = false)
            ∧ (hj.resultVersion = none → h.result_version = "3.0")
            ∧ (hj.title = none → h.title = "Results")
            ∧ (hj.statsFields = none → h.stats_fields = defaultStatsFields)
            ∧ (hj.version = none → h.version = [] ∧ h.duration = 0)) := by
  refine ⟨?_, ?_, ?_, ?_, ?_, ?_, ?_, ?_, ?_⟩
  · intro tj hmiss; simp [load_test_result, hmiss]
  · intro tj hmiss; simp [load_test_result, hmiss]
  · intro tj hmiss; simp [load_test_result, hmiss]
  · intro tj hmiss; simp [load_test_result, hmiss]
  · intro tj hmiss; simp [load_test_result, hmiss]
  · intro tj hmiss; simp [load_test_result, hmiss]
  · intro tj hmiss; simp [load_test_result, hmiss]
  · intro tj hmiss; simp [load_test_result, hmiss]; rfl
  · intro hj h hok
    obtain ⟨h1, h2, h3, h4, h5, h6, h7, h8⟩ := load_test_header_fields hj h hok
    refine ⟨?_, ?_, ?_, ?_, ?_, ?_, ?_, ?_⟩
    · intro hm; rw [h1, hm]; rfl
    · intro hm; rw [h2, hm]; rfl
    · intro hm; rw [h3, hm]; rfl
    · intro hm; rw [h7, hm]; rfl
    · intro hm; rw [h4, hm]; rfl
    · intro hm; rw [h6, hm]; rfl
    · intro hm; rw [h5, hm]; rfl
    · intro hm
      have := load_test_header_version_none hj hm
      rw [this] at hok
      simp only [Except.ok.injEq] at hok
      subst hok
      exact ⟨rfl, rfl⟩

/-- The header value produced by loading a document with no keys. -/
def hdrAllMissing : TestHeader := { result_version := "3.0" }

/-- Witness for C8's amended defaulting behaviour on concrete all-missing
documents. -/
theorem C8_defaults_amended_witness :
    (load_test_result {}).stats = []
      ∧ (load_test_result {}).file_name = ""
      ∧ (load_test_result {}).exit_code = 0
      ∧ (load_test_result {}).diff = []
      ∧ hdrAllMissing.result_version = "3.0"
      ∧ hdrAllMissing.title = "Results" := by
  have hok : load_test_header {} = Except.ok hdrAllMissing :=
    load_test_header_version_none {} rfl
  refine ⟨C8_defaults_amended.1 {} rfl,
          C8_defaults_amended.2.1 {} rfl,
          C8_defaults_amended.2.2.2.2.1 {} rfl,
          C8_defaults_amended.2.2.2.2.2.2.2.1 {} rfl,
          (C8_defaults_amended.2.2.2.2.2.2.2.2 {} hdrAllMissing hok).2.2.2.2.1 rfl,
          (C8_defaults_amended.2.2.2.2.2.2.2.2 {} hdrAllMissing hok).2.2.2.2.2.1 rfl⟩

/-- A sample whose run image exists but cannot be decoded. -/
def reBad : RenderElement :=
  { name := "beauty", run_file := "bad.png", ref_file := "ref.png" }

/-- A filesystem where the run file exists but is undecodable and the
reference decodes fine. -/
def fsC3 : String → FileState := fun p =>
  if p = "bad.png" then FileState.unreadable
  else if p = "ref.png" then FileState.image [[0]]
  else FileState.absent

/-- A test holding the undecodable sample. -/
def tr3 : TestResult :=
  { file_name := "t1", file_path := "suite/t1.vrscene", diff := [("beauty", [reBad])] }

/-- C3 counterexample: when the run image exists but cannot be decoded,
`cv2.imread` returns `None`, the later `len(run_image)` raises `TypeError`,
the exception escapes `ComputeMetrics`, and the whole aggregation loop
aborts — no HARD row is produced for the sample. -/
theorem C3_undecodable_file_aborts :
    ComputeMetrics ssimZero fsC3 "bad.png" "ref.png" = Except.error ()
      ∧ GenerateReport ssimZero fsC3 (populate_tree_view [tr3]) 0 = Except.error () :=
  ⟨rfl, rfl⟩

/-- Left-to-right row collection succeeds with exactly one row per sample
when no sample raises. -/
theorem collectRows_length
    (f : String × String × String × RenderElement → Except Unit ReportEntry) :
    ∀ l : List (String × String × String × RenderElement),
      (∀ s ∈ l, ∃ r, f s = Except.ok r) →
      ∃ rs, collectRows f l = Except.ok rs ∧ rs.length = l.length := by
  intro l
  induction l with
  | nil => exact fun _ => ⟨[], rfl, rfl⟩
  | cons s rest ih =>
    intro h
    obtain ⟨r, hr⟩ := h s (by simp)
    obtain ⟨rs, hrs, hlen⟩ := ih (fun x hx => h x (by simp [hx]))
    exact ⟨r :: rs, by simp [collectRows, hr, hrs], by simp [hlen]⟩

/-- C3 amended: a sample whose run or reference image does not exist gets
the not-computable outcome with no exception, and yields exactly one HARD
report row; the aggregation loop completes with one row per sample provided
no sample raises.  (An image that exists but cannot be decoded instead
raises and aborts the loop, as shown separately above.) -/
theorem C3_missing_file_amended :
    (∀ (ssimFn : List (List Nat) → List (List Nat) → ℚ) (fs : String → FileState)
        (run ref : String),
        (fileExists (fs run) = false ∨ fileExists (fs ref) = false) →
        ComputeMetrics ssimFn fs run ref = Except.ok none)
      ∧ (∀ (ssimFn : List (List Nat) → List (List Nat) → ℚ) (fs : String → FileState)
          (d t nm : String) (e : RenderElement),
          (fileExists (fs e.run_file) = false ∨ fileExists (fs e.ref_file) = false) →
          processElement ssimFn fs d t nm e = Except.ok (hardEntry d t nm e))
      ∧ (∀ (ssimFn : List (List Nat) → List (List Nat) → ℚ) (fs : String → FileState)
          (root : List TreeItem) (limit : Nat),
          (∀ s ∈ sampleList root limit,
            ∃ r, processElement ssimFn fs s.1 s.2.1 s.2.2.1 s.2.2.2 = Except.ok r) →
          ∃ rs, GenerateReport ssimFn fs root limit = Except.ok rs
            ∧ rs.length = (sampleList root limit).length) := by
  have hcm : ∀ (ssimFn : List (List Nat) → List (List Nat) → ℚ) (fs : String → FileState)
      (run ref : String),
      (fileExists (fs run) = false ∨ fileExists (fs ref) = false) →
      ComputeMetrics ssimFn fs run ref = Except.ok none := by
    intro ssimFn fs run ref h
    rcases h with h | h <;> simp [ComputeMetrics, h]
  refine ⟨hcm, ?_, ?_⟩
  · intro ssimFn fs d t nm e h
    simp [processElement, hcm ssimFn fs e.run_file e.ref_file h]
  · intro ssimFn fs root limit h
    exact collectRows_length _ (sampleList root limit) h

/-- Witness for C3's amended behaviour: a concrete missing-image sample
yields `Except.ok none` and exactly one HARD row, and the loop over the
concrete one-sample tree completes with one row. -/
theorem C3_missing_file_amended_witness :
    ComputeMetrics ssimZero fsAbsent "missing_run.png" "missing_ref.png" = Except.ok none
      ∧ processElement ssimZero fsAbsent "suite" "t1" "beauty" reMissing =
          Except.ok (hardEntry "suite" "t1" "beauty" reMissing)
      ∧ ∃ rs, GenerateReport ssimZero fsAbsent (populate_tree_view [tr2]) 0 = Except.ok rs
          ∧ rs.length = (sampleList (populate_tree_view [tr2]) 0).length := by
  refine ⟨C3_missing_file_amended.1 ssimZero fsAbsent _ _ (Or.inl rfl),
          C3_missing_file_amended.2.1 ssimZero fsAbsent "suite" "t1" "beauty" reMissing
            (Or.inl rfl),
          C3_missing_file_amended.2.2 ssimZero fsAbsent (populate_tree_view [tr2]) 0 ?_⟩
  intro s hs
  have e : sampleList (populate_tree_view [tr2]) 0 =
      [("suite", "t1", "beauty", reMissing)] := rfl
  rw [e] at hs
  simp only [List.mem_singleton] at hs
  subst hs
  exact ⟨hardEntry "suite" "t1" "beauty" reMissing,
    C3_missing_file_amended.2.1 ssimZero fsAbsent "suite" "t1" "beauty" reMissing (Or.inl rfl)⟩

/-! ## Structure of the diff index: grouping and stable sorting -/

/-- Inserting an element permutes with prepending it. -/
theorem insortFrame_perm (x : RenderElement) :
    ∀ l : List RenderElement, (insortFrame x l).Perm (x :: l) := by
  intro l
  induction l with
  | nil => exact List.Perm.refl _
  | cons y ys ih =>
    by_cases hy : y.frame < x.frame
    · simpa [insortFrame, hy] using (ih.cons y).trans (List.Perm.swap x y ys)
    · simp [insortFrame, hy]

/-- Inserting preserves ascending order by frame. -/
theorem insortFrame_pairwise (x : RenderElement) (l : List RenderElement)
    (h : l.Pairwise (fun a b => a.frame ≤ b.frame)) :
    (insortFrame x l).Pairwise (fun a b => a.frame ≤ b.frame) := by
  induction l with
  | nil => simp [insortFrame]
  | cons y ys ih =>
    rw [List.pairwise_cons] at h
    by_cases hy : y.frame < x.frame
    · rw [insortFrame, if_pos hy, List.pairwise_cons]
      refine ⟨?_, ih h.2⟩
      intro z hz
      rcases List.mem_cons.mp ((insortFrame_perm x ys).mem_iff.mp hz) with hz | hz
      · subst hz; exact le_of_lt hy
      · exact h.1 z hz
    · rw [insortFrame, if_neg hy, List.pairwise_cons]
      refine ⟨?_, List.pairwise_cons.mpr h⟩
      intro z hz
      rcases List.mem_cons.mp hz with hz | hz
      · subst hz; exact not_lt.mp hy
      · exact le_trans (not_lt.mp hy) (h.1 z hz)

/-- Filtering at the inserted element's own frame puts it first: every
element it was inserted after has a strictly smaller frame. -/
theorem insortFrame_filter_pos (x : RenderElement) (f : Int) (hx : x.frame = f) :
    ∀ l : List RenderElement,
      (insortFrame x l).filter (fun e => e.frame == f) =
        x :: l.filter (fun e => e.frame == f) := by
  intro l
  induction l with
  | nil => simp [insortFrame, List.filter, hx]
  | cons y ys ih =>
    by_cases hy : y.frame < x.frame
    · have hyf : (y.frame == f) = false := by
        simp only [beq_eq_false_iff_ne]
        omega
      rw [insortFrame, if_pos hy]
      simp [List.filter_cons, hyf, ih]
    · rw [insortFrame, if_neg hy]
      simp [List.filter_cons, hx]

/-- Filtering at any other frame ignores the inserted element. -/
theorem insortFrame_filter_neg (x : RenderElement) (f : Int) (hx : x.frame ≠ f) :
    ∀ l : List RenderElement,
      (insortFrame x l).filter (fun e => e.frame == f) =
        l.filter (fun e => e.frame == f) := by
  intro l
  have hxf : (x.frame == f) = false := by simpa using hx
  induction l with
  | nil => simp [insortFrame, List.filter, hxf]
  | cons y ys ih =>
    by_cases hy : y.frame < x.frame
    · simp [insortFrame, hy, List.filter_cons, ih]
    · simp [insortFrame, hy, List.filter_cons, hxf]

/-- The stable sort is a permutation. -/
theorem sortByFrame_perm : ∀ l : List RenderElement, (sortByFrame l).Perm l := by
  intro l
  induction l with
  | nil => exact List.Perm.refl _
  | cons x xs ih => exact (insortFrame_perm x (sortByFrame xs)).trans (ih.cons x)

/-- The stable sort is ascending in frame index. -/
theorem sortByFrame_pairwise :
    ∀ l : List RenderElement, (sortByFrame l).Pairwise (fun a b => a.frame ≤ b.frame) := by
  intro l
  induction l with
  | nil => simp [sortByFrame]
  | cons x xs ih => exact insortFrame_pairwise x (sortByFrame xs) ih

/-- Stability: restricted to any single frame value, the sorted list is the
original subsequence — equal-frame elements keep their relative order. -/
theorem sortByFrame_filter (f : Int) :
    ∀ l : List RenderElement,
      (sortByFrame l).filter (fun e => e.frame == f) = l.filter (fun e => e.frame == f) := by
  intro l
  induction l with
  | nil => rfl
  | cons x xs ih =>
    show (insortFrame x (sortByFrame xs)).filter _ = _
    by_cases hx : x.frame = f
    · rw [insortFrame_filter_pos x f hx, ih, List.filter_cons,
        if_pos (by simpa using hx)]
    · rw [insortFrame_filter_neg x f hx, ih, List.filter_cons,
        if_neg (by simpa using hx)]

/-- The keys after one dict-append step: unchanged when the name is already
present, extended at the end otherwise. -/
theorem dictAppend_keys (acc : List (String × List RenderElement)) (e : RenderElement) :
    (dictAppend acc e).map Prod.fst =
      if e.name ∈ acc.map Prod.fst then acc.map Prod.fst
      else acc.map Prod.fst ++ [e.name] := by
  induction acc with
  | nil => simp [dictAppend]
  | cons p ps ih =>
    by_cases hp : p.1 = e.name
    · simp [dictAppend, hp]
    · have hne : e.name ≠ p.1 := fun h => hp h.symm
      by_cases hm : e.name ∈ ps.map Prod.fst
      · simp [dictAppend, hp, ih, hm, hne]
      · simp [dictAppend, hp, ih, hm, hne]

/-- Membership among the keys after one dict-append step. -/
theorem mem_dictAppend_keys (acc : List (String × List RenderElement))
    (e : RenderElement) (n : String) :
    n ∈ (dictAppend acc e).map Prod.fst ↔ n ∈ acc.map Prod.fst ∨ n = e.name := by
  rw [dictAppend_keys]
  by_cases hm : e.name ∈ acc.map Prod.fst
  · rw [if_pos hm]
    constructor
    · exact Or.inl
    · rintro (h | h)
      · exact h
      · exact h ▸ hm
  · rw [if_neg hm]
    simp

/-- One dict-append step keeps the keys duplicate-free. -/
theorem dictAppend_keys_nodup (acc : List (String × List RenderElement))
    (e : RenderElement) (h : (acc.map Prod.fst).Nodup) :
    ((dictAppend acc e).map Prod.fst).Nodup := by
  rw [dictAppend_keys]
  by_cases hm : e.name ∈ acc.map Prod.fst
  · rwa [if_pos hm]
  · rw [if_neg hm]
    simp [List.nodup_append, h, hm]

/-- Lookup after one dict-append step: the appended element lands at the end
of its own name's list and nowhere else. -/
theorem assocGet_dictAppend (acc : List (String × List RenderElement))
    (e : RenderElement) (n : String) :
    assocGet (dictAppend acc e) n =
      if n = e.name then assocGet acc n ++ [e] else assocGet acc n := by
  induction acc with
  | nil =>
    by_cases hn : n = e.name
    · simp [dictAppend, assocGet, hn]
    · have hne : e.name ≠ n := fun h => hn h.symm
      simp [dictAppend, assocGet, hn, hne]
  | cons p ps ih =>
    by_cases hp : p.1 = e.name
    · by_cases hn : n = e.name
      · simp [dictAppend, assocGet, hp, hn]
      · have hne : e.name ≠ n := fun h => hn h.symm
        simp [dictAppend, assocGet, hp, hn, hne]
    · by_cases hpn : p.1 = n
      · have hne2 : n ≠ e.name := fun h => hp (hpn.trans h)
        simp [dictAppend, assocGet, hp, hpn, hne2]
      · simp [dictAppend, assocGet, hp, hpn, ih]

/-- Lookup after folding a sample sequence into the dict: the samples of a
name are appended, in sequence order, after whatever the accumulator held. -/
theorem assocGet_foldl (n : String) :
    ∀ (l : List RenderElement) (acc : List (String × List RenderElement)),
      assocGet (l.foldl dictAppend acc) n =
        assocGet acc n ++ l.filter (fun e => e.name == n) := by
  intro l
  induction l with
  | nil => intro acc; simp
  | cons a l ih =>
    intro acc
    rw [List.foldl_cons, ih (dictAppend acc a), assocGet_dictAppend, List.filter_cons]
    by_cases hn : n = a.name
    · rw [if_pos hn, if_pos (by simpa using hn.symm)]
      simp
    · rw [if_neg hn, if_neg (by simpa using fun h => hn h.symm)]

/-- Key membership after folding: a name is a key exactly when the
accumulator already had it or some folded sample bears it. -/
theorem mem_keys_foldl (n : String) :
    ∀ (l : List RenderElement) (acc : List (String × List RenderElement)),
      n ∈ ((l.foldl dictAppend acc).map Prod.fst) ↔
        n ∈ acc.map Prod.fst ∨ ∃ e ∈ l, e.name = n := by
  intro l
  induction l with
  | nil => intro acc; simp
  | cons a l ih =>
    intro acc
    rw [List.foldl_cons, ih (dictAppend acc a), mem_dictAppend_keys]
    constructor
    · rintro ((h | h) | h)
      · exact Or.inl h
      · exact Or.inr ⟨a, by simp, h.symm⟩
      · obtain ⟨e, he, hne⟩ := h
        exact Or.inr ⟨e, by simp [he], hne⟩
    · rintro (h | h)
      · exact Or.inl (Or.inl h)
      · obtain ⟨e, he, hne⟩ := h
        rcases List.mem_cons.mp he with he | he
        · exact Or.inl (Or.inr (he ▸ hne).symm)
        · exact Or.inr ⟨e, he, hne⟩

/-- Folding keeps the keys duplicate-free. -/
theorem keys_nodup_foldl :
    ∀ (l : List RenderElement) (acc : List (String × List RenderElement)),
      (acc.map Prod.fst).Nodup → ((l.foldl dictAppend acc).map Prod.fst).Nodup := by
  intro l
  induction l with
  | nil => intro acc h; simpa using h
  | cons a l ih =>
    intro acc h
    exact ih (dictAppend acc a) (dictAppend_keys_nodup acc a h)

/-- With duplicate-free keys, each entry of the association list is its own
lookup result. -/
theorem assocGet_of_mem :
    ∀ (acc : List (String × List RenderElement)),
      (acc.map Prod.fst).Nodup →
      ∀ p ∈ acc, assocGet acc p.1 = p.2 := by
  intro acc
  induction acc with
  | nil => intro _ p hp; exact absurd hp (by simp)
  | cons q ps ih =>
    intro hnd p hp
    rw [List.map_cons, List.nodup_cons] at hnd
    rcases List.mem_cons.mp hp with hp | hp
    · subst hp
      rw [assocGet, if_pos rfl]
    · have hne : q.1 ≠ p.1 := by
        intro h
        exact hnd.1 (h ▸ List.mem_map_of_mem Prod.fst hp)
      rw [assocGet, if_neg hne]
      exact ih hnd.2 p hp

/-- Every entry of the loaded diff index is the stable frame-sort of the raw
samples bearing its name, in raw order. -/
theorem load_test_diff_entry (j : List DiffItemJson) :
    ∀ p ∈ load_test_diff j,
      p.2 = sortByFrame ((rawElements j).filter (fun e => e.name == p.1)) := by
  intro p hp
  obtain ⟨q, hq, hpq⟩ := List.mem_map.mp hp
  have hnd : (((rawElements j).foldl dictAppend []).map Prod.fst).Nodup :=
    keys_nodup_foldl (rawElements j) [] (by simp)
  have hget := assocGet_of_mem ((rawElements j).foldl dictAppend []) hnd q hq
  rw [assocGet_foldl q.1 (rawElements j) []] at hget
  simp only [assocGet] at hget
  subst hpq
  simp only [← hget, List.nil_append]

/-- A name is a key of the loaded diff index exactly when some raw sample
bears it. -/
theorem load_test_diff_keys (j : List DiffItemJson) (n : String) :
    n ∈ (load_test_diff j).map Prod.fst ↔ ∃ e ∈ rawElements j, e.name = n := by
  have : (load_test_diff j).map Prod.fst =
      ((rawElements j).foldl dictAppend []).map Prod.fst := by
    simp [load_test_diff]
  rw [this, mem_keys_foldl n (rawElements j) []]
  simp

/-- C7: every sample list of the loaded diff index is non-decreasing in
frame index; it is a permutation of the raw samples of that name; and the
sort used frame index only and is stable — restricted to any one frame
value it is exactly the raw subsequence of that name, so duplicate frame
indices keep their original relative order. -/
theorem C7_per_name_sorted_stable (j : List DiffItemJson) (n : String)
    (es : List RenderElement) (h : (n, es) ∈ load_test_diff j) :
    es.Pairwise (fun a b => a.frame ≤ b.frame)
      ∧ es.Perm ((rawElements j).filter (fun e => e.name == n))
      ∧ ∀ f : Int, es.filter (fun e => e.frame == f) =
          ((rawElements j).filter (fun e => e.name == n)).filter (fun e => e.frame == f) := by
  have he := load_test_diff_entry j (n, es) h
  refine ⟨?_, ?_, ?_⟩
  · rw [show es = (n, es).2 from rfl, he]
    exact sortByFrame_pairwise _
  · rw [show es = (n, es).2 from rfl, he]
    exact sortByFrame_perm _
  · intro f
    rw [show es = (n, es).2 from rfl, he]
    exact sortByFrame_filter f _

/-- A raw diff list with three `beauty` samples at frames 1, 0, 1 — the two
frame-1 samples are distinguished by status. -/
def jDup : List DiffItemJson :=
  [{ frame := some 1, renderElements := some [{ name := some "beauty", status := some "a" }] },
   { frame := some 0, renderElements := some [{ name := some "beauty", status := some "b" }] },
   { frame := some 1, renderElements := some [{ name := some "beauty", status := some "c" }] }]

/-- The sorted `beauty` list `jDup` loads to: frame 0 first, then the two
frame-1 samples in their original order `a`, `c`. -/
def esDup : List RenderElement :=
  [{ frame := 0, name := "beauty", status := "b" },
   { frame := 1, name := "beauty", status := "a" },
   { frame := 1, name := "beauty", status := "c" }]

/-- Witness for C7 on the concrete duplicate-frame diff list. -/
theorem C7_per_name_sorted_stable_witness :
    esDup.Pairwise (fun a b => a.frame ≤ b.frame)
      ∧ esDup.filter (fun e => e.frame == (1 : Int)) =
          ((rawElements jDup).filter (fun e => e.name == "beauty")).filter
            (fun e => e.frame == (1 : Int)) := by
  have hmem : ("beauty", esDup) ∈ load_test_diff jDup := by
    rw [show load_test_diff jDup = [("beauty", esDup)] from rfl]
    exact List.mem_singleton.mpr rfl
  exact ⟨(C7_per_name_sorted_stable jDup "beauty" esDup hmem).1,
         (C7_per_name_sorted_stable jDup "beauty" esDup hmem).2.2 1⟩

/-- C10: a render-element name is a key of the loaded diff index exactly
when at least one loaded sample bears that name, and every key's sample
list is non-empty — consumers may always take the first sample of a listed
name. -/
theorem C10_diff_index_keys_nonempty (j : List DiffItemJson) (n : String) :
    (n ∈ (load_test_diff j).map Prod.fst ↔ ∃ e ∈ rawElements j, e.name = n)
      ∧ ∀ p ∈ load_test_diff j, p.2 ≠ [] := by
  refine ⟨load_test_diff_keys j n, ?_⟩
  intro p hp hnil
  have he := load_test_diff_entry j p hp
  have hk : p.1 ∈ (load_test_diff j).map Prod.fst := List.mem_map_of_mem Prod.fst hp
  obtain ⟨e, he2, hname⟩ := (load_test_diff_keys j p.1).mp hk
  have hmf : e ∈ (rawElements j).filter (fun x => x.name == p.1) :=
    List.mem_filter.mpr ⟨he2, by simp [hname]⟩
  have hlen : p.2.length = ((rawElements j).filter (fun x => x.name == p.1)).length := by
    rw [he]
    exact (sortByFrame_perm _).length_eq
  rw [hnil] at hlen
  rw [eq_comm, List.length_nil, List.length_eq_zero] at hlen
  rw [hlen] at hmf
  exact absurd hmf (by simp)

/-- Witness for C10 on the concrete diff list. -/
theorem C10_diff_index_keys_nonempty_witness :
    ("beauty" ∈ (load_test_diff jDup).map Prod.fst) ∧ esDup ≠ [] := by
  have hmem : ("beauty", esDup) ∈ load_test_diff jDup := by
    rw [show load_test_diff jDup = [("beauty", esDup)] from rfl]
    exact List.mem_singleton.mpr rfl
  exact ⟨List.mem_map_of_mem Prod.fst hmem,
         (C10_diff_index_keys_nonempty jDup "beauty").2 ("beauty", esDup) hmem⟩
